import Mathlib

/-!
Shallow embedding of the mutagen mutation-testing runtime core:
the process-wide runtime configuration (`runtime_config.rs`) and the
unary-NOT mutator's runtime functions (`mutator_unop_not.rs`), together
with the concrete instrumented functions of the binop-num selftests
(`test_binop_num.rs`).

`u32` values are modelled as `Nat`; arithmetic that can overflow in the
source is taken modulo `2 ^ 32`.
-/

/-- The modulus of the `u32` machine-integer type. -/
def u32Mod : Nat := 2 ^ 32

/-- Embeds `MutagenRuntimeConfig { mutation_id: u32 }`:
the single process-wide active mutation id. -/
structure MutagenRuntimeConfig where
  mutation_id : Nat
  deriving DecidableEq, Repr

namespace MutagenRuntimeConfig

/-- Embeds `is_mutation_active`: exact equality test of the queried id
against the stored active id. -/
def is_mutation_active (cfg : MutagenRuntimeConfig) (mutation_id : Nat) : Bool :=
  cfg.mutation_id == mutation_id

/-- Embeds `in_bounds`:
`mutator_id < self.mutation_id && self.mutation_id < num_mutations + mutator_id`,
with the `u32` addition reduced modulo `2 ^ 32`. -/
def in_bounds (cfg : MutagenRuntimeConfig) (mutator_id num_mutations : Nat) : Bool :=
  decide (mutator_id < cfg.mutation_id) &&
    decide (cfg.mutation_id < (num_mutations + mutator_id) % u32Mod)

/-- Embeds `get_mutation`: `None` if the active id precedes `mutator_id`,
otherwise checked indexing of the slice at offset `mutation_id - mutator_id`. -/
def get_mutation {T : Type} (cfg : MutagenRuntimeConfig) (mutator_id : Nat)
    (mutations : List T) : Option T :=
  if cfg.mutation_id < mutator_id then none
  else mutations.get? (cfg.mutation_id - mutator_id)

end MutagenRuntimeConfig

/-- Models `s.parse::<u32>()` of the Rust standard library as used by
`from_env`: an optional leading `+`, then one or more decimal digits,
rejecting the empty digit string and values that overflow `u32`. -/
def parseU32 (s : String) : Option Nat :=
  let cs :=
    match s.data with
    | '+' :: rest => rest
    | cs => cs
  if cs.isEmpty then none
  else
    let digits := cs.foldl
      (fun acc c => acc.bind fun n =>
        if c.isDigit then some (10 * n + (c.toNat - 48)) else none)
      (some 0)
    match digits with
    | none => none
    | some n => if n < u32Mod then some n else none

namespace MutagenRuntimeConfig

/-- Embeds `from_env`: the environment variable (`none` when absent) is
parsed as `u32`; any failure falls back to mutation id 0. -/
def from_env (envVar : Option String) : MutagenRuntimeConfig :=
  { mutation_id := (envVar.bind parseU32).getD 0 }

/-- Embeds `get_default` as explicit state passing over the lazily
initialized global: given the current stored config (`none` =
uninitialized) and the environment, returns the config handed to the
caller and the new stored state. -/
def get_default (state : Option MutagenRuntimeConfig) (envVar : Option String) :
    MutagenRuntimeConfig × Option MutagenRuntimeConfig :=
  match state with
  | none =>
    let env_config := MutagenRuntimeConfig.from_env envVar
    (env_config, some env_config)
  | some config => (config, some config)

end MutagenRuntimeConfig

/-- Models a Rust operand type `T : Not` for the generic unary-NOT
mutator: `not` is the `Not` implementation (output type `β` may differ
from `α`), and `into` is `some conv` exactly when the specialized
`T : Into <T as Not>::Output` implementation exists (the specific tier
of the optimistic dispatch), `none` when only the default tier applies. -/
structure NotOp (α β : Type) where
  not : α → β
  into : Option (α → β)

namespace mutator_unop_not

/-- Embeds `NotToNone::may_none` with specialization resolved: the
specific tier returns `self.into()`; the default tier calls
`optimistic_assmuption_failed`, a fatal failure modelled as `none`. -/
def may_none {α β : Type} (op : NotOp α β) (v : α) : Option β :=
  match op.into with
  | some conv => some (conv v)
  | none => none

/-- Embeds `mutator_unop_not::run` for a general operand type: when the
mutation at `mutator_id` is active the value goes through `may_none`,
otherwise the negation `!val` is returned. `some` is a normal return,
`none` the fatal optimistic-assumption failure. -/
def run {α β : Type} (op : NotOp α β) (mutator_id : Nat) (val : α)
    (runtime : MutagenRuntimeConfig) : Option β :=
  if runtime.is_mutation_active mutator_id then may_none op val
  else some (op.not val)

/-- Embeds `mutator_unop_not::run_native_num` for a native numeric or
boolean operand (`I : Not<Output = I>`, embodied by `notf`): active
mutation returns the value unchanged, inactive returns the negation. -/
def run_native_num {I : Type} (notf : I → I) (mutator_id : Nat) (val : I)
    (runtime : MutagenRuntimeConfig) : I :=
  if runtime.is_mutation_active mutator_id then val else notf val

end mutator_unop_not

/-- Rust `!v` on `u32`: bitwise complement, `2 ^ 32 - 1 - v`. -/
def notU32 (v : Nat) : Nat := (u32Mod - 1) - v

/-- Rust `!v` on `i32` (two's complement): `-v - 1`. -/
def notI32 (v : Int) : Int := -v - 1

/-- Modelled from the spec: the binop-num mutator's generated runtime
switch is not under the sources (only its selftests are). Per the spec's
binop scenarios, the instrumented binary expression asks the runtime
config whether its site id is active and evaluates the swapped operator
(e.g. `+` swapped to `-`) when active, the original operator otherwise. -/
def binop_num_run (orig mutated : Int → Int → Int) (mutator_id : Nat)
    (a b : Int) (runtime : MutagenRuntimeConfig) : Int :=
  if runtime.is_mutation_active mutator_id then mutated a b else orig a b

/-- Embeds the selftest function `sum_i32` (`5 + 1`), one binop-num
mutation site with id 1 that swaps `+` to `-`. -/
def sum_i32 (runtime : MutagenRuntimeConfig) : Int :=
  binop_num_run (fun a b => a + b) (fun a b => a - b) 1 5 1 runtime

/-- Embeds the selftest function `multiple_adds` (`5 + 4 + 1`), two
adjacent binop-num sites: the inner `5 + 4` has id 1, the outer `+ 1`
has id 2, each swapping `+` to `-`. -/
def multiple_adds (runtime : MutagenRuntimeConfig) : Int :=
  binop_num_run (fun a b => a + b) (fun a b => a - b) 2
    (binop_num_run (fun a b => a + b) (fun a b => a - b) 1 5 4 runtime) 1 runtime

/-- Rust `u32` subtraction with its underflow failure made explicit:
`none` models the arithmetic panic. -/
def checkedSub (a b : Nat) : Option Nat :=
  if a < b then none else some (a - b)

/-- `get_mutation` with every panic source explicit: the outer `none`
models a panic, the outer `some` a normal return. The subtraction uses
`checkedSub`; the slice lookup is Rust's checked `.get`, which cannot
panic. -/
def get_mutation_checked {T : Type} (cfg : MutagenRuntimeConfig)
    (mutator_id : Nat) (mutations : List T) : Option (Option T) :=
  if cfg.mutation_id < mutator_id then some none
  else
    match checkedSub cfg.mutation_id mutator_id with
    | none => none
    | some index => some (mutations.get? index)

/-! ## Claims -/

/-- C1 counterexample: the claim states
`in_bounds(s, c) = true ↔ s ≤ active_id < s + c`, but the code tests the
lower bound strictly (`mutator_id < self.mutation_id`). At `s = 1`,
`c = 1`, active id 1 the claim demands `true` (`1 ≤ 1 < 2`) while
`in_bounds` returns `false`. -/
theorem in_bounds_claim_counterexample :
    ¬ ((MutagenRuntimeConfig.mk 1).in_bounds 1 1 = true ↔
        (1 ≤ (1 : Nat) ∧ (1 : Nat) < 1 + 1)) := by
  decide

/-- C1 amended: when `s + c` does not overflow `u32`, `in_bounds(s, c)`
returns true iff the active id lies strictly between the bounds,
`s < active_id < s + c` — the open-below interval `(s, s + c)`, not the
claim's half-open `[s, s + c)`. -/
theorem in_bounds_iff (cfg : MutagenRuntimeConfig) (s c : Nat)
    (h : c + s < u32Mod) :
    cfg.in_bounds s c = true ↔
      (s < cfg.mutation_id ∧ cfg.mutation_id < s + c) := by
  rw [MutagenRuntimeConfig.in_bounds, Nat.mod_eq_of_lt h]
  simp [Nat.add_comm c s]

/-- C1 witness: for `s = 1`, `c = 2`, active id 2 the no-overflow bound
holds and `in_bounds` returns true. -/
theorem in_bounds_iff_witness :
    (MutagenRuntimeConfig.mk 2).in_bounds 1 2 = true :=
  (in_bounds_iff ⟨2⟩ 1 2 (by norm_num [u32Mod])).mpr (by decide)

/-- C3: `run_native_num` returns the operand unchanged when the mutation
at its site id is active, and the negation `!val` when it is inactive,
for every operand type with a `Not` into itself (native integers and
booleans). -/
theorem run_native_num_spec {I : Type} (notf : I → I)
    (cfg : MutagenRuntimeConfig) (site : Nat) (v : I) :
    (cfg.is_mutation_active site = true →
      mutator_unop_not.run_native_num notf site v cfg = v) ∧
    (cfg.is_mutation_active site = false →
      mutator_unop_not.run_native_num notf site v cfg = notf v) := by
  constructor <;> intro h <;> simp [mutator_unop_not.run_native_num, h]

/-- C3 witness: the scenario of the test `intnot_active` (site 1,
value 1, mutation 1 active, result 1) and its inactive `u32` and `Bool`
counterparts. -/
theorem run_native_num_spec_witness :
    mutator_unop_not.run_native_num notU32 1 1 (MutagenRuntimeConfig.mk 1) = 1 ∧
    mutator_unop_not.run_native_num notU32 1 1 (MutagenRuntimeConfig.mk 0) = notU32 1 ∧
    mutator_unop_not.run_native_num Bool.not 1 true (MutagenRuntimeConfig.mk 1) = true := by
  refine ⟨?_, ?_, ?_⟩
  · exact (run_native_num_spec notU32 ⟨1⟩ 1 1).1 (by decide)
  · exact (run_native_num_spec notU32 ⟨0⟩ 1 1).2 (by decide)
  · exact (run_native_num_spec Bool.not ⟨1⟩ 1 true).1 (by decide)

/-- C5: the binop-num selftest scenarios. `5 + 1` (site id 1): baseline
6, id 1 active 4. `5 + 4 + 1` (site ids 1 and 2): baseline 10, id 1
active 2, id 2 active 8. -/
theorem binop_num_scenarios :
    sum_i32 (MutagenRuntimeConfig.mk 0) = 6 ∧
    sum_i32 (MutagenRuntimeConfig.mk 1) = 4 ∧
    multiple_adds (MutagenRuntimeConfig.mk 0) = 10 ∧
    multiple_adds (MutagenRuntimeConfig.mk 1) = 2 ∧
    multiple_adds (MutagenRuntimeConfig.mk 2) = 8 := by
  refine ⟨?_, ?_, ?_, ?_, ?_⟩ <;> decide

/-- C6: at most one mutation id is active under a fixed runtime
configuration: `is_mutation_active` is an exact equality test against
the single stored id, so two active ids must coincide. -/
theorem at_most_one_active (cfg : MutagenRuntimeConfig) (m1 m2 : Nat)
    (h1 : cfg.is_mutation_active m1 = true)
    (h2 : cfg.is_mutation_active m2 = true) : m1 = m2 := by
  have e1 : cfg.mutation_id = m1 := by
    simpa [MutagenRuntimeConfig.is_mutation_active] using h1
  have e2 : cfg.mutation_id = m2 := by
    simpa [MutagenRuntimeConfig.is_mutation_active] using h2
  exact e1 ▸ e2

/-- C6 witness: with active id 5, both hypotheses hold at `m1 = m2 = 5`. -/
theorem at_most_one_active_witness :
    (MutagenRuntimeConfig.mk 5).is_mutation_active 5 = true ∧ (5 : Nat) = 5 :=
  ⟨by decide, at_most_one_active ⟨5⟩ 5 5 (by decide) (by decide)⟩

/-- An operand type whose `Not` output admits the safe conversion
(`Into`) — like `bool`, whose negation output is `bool` itself. -/
def boolNotOp : NotOp Bool Bool :=
  { not := Bool.not, into := some (fun b => b) }

/-- An operand type whose `Not` output type differs and has no
conversion — the selftest type `TypeWithNotOtherOutput`, whose negation
yields `TypeWithNotTarget` (both modelled as `Unit`-like carriers). -/
def typeWithNotOtherOutput : NotOp Unit Bool :=
  { not := fun _ => true, into := none }

/-- C2: the generic unary-NOT mutator. Active with a safe conversion:
the converted un-negated value is returned without failure. Active
without one: the run fails fatally (optimistic assumption failed) and
returns no value. Inactive: the negation `!val` is returned unaffected. -/
theorem unop_not_run_spec {α β : Type} (op : NotOp α β)
    (cfg : MutagenRuntimeConfig) (site : Nat) (v : α) :
    (cfg.is_mutation_active site = true →
      (∀ conv, op.into = some conv →
        mutator_unop_not.run op site v cfg = some (conv v)) ∧
      (op.into = none → mutator_unop_not.run op site v cfg = none)) ∧
    (cfg.is_mutation_active site = false →
      mutator_unop_not.run op site v cfg = some (op.not v)) := by
  refine ⟨fun h => ⟨fun conv hc => ?_, fun hc => ?_⟩, fun h => ?_⟩
  · simp [mutator_unop_not.run, mutator_unop_not.may_none, h, hc]
  · simp [mutator_unop_not.run, mutator_unop_not.may_none, h, hc]
  · simp [mutator_unop_not.run, h]

/-- C2 witness: at site 1 with mutation 1 active, the convertible type
returns the converted value and the inconvertible type fails fatally;
inactive, the negation is returned. -/
theorem unop_not_run_spec_witness :
    mutator_unop_not.run boolNotOp 1 true (MutagenRuntimeConfig.mk 1) = some true ∧
    mutator_unop_not.run typeWithNotOtherOutput 1 () (MutagenRuntimeConfig.mk 1) = none ∧
    mutator_unop_not.run boolNotOp 1 true (MutagenRuntimeConfig.mk 0) = some false := by
  refine ⟨?_, ?_, ?_⟩
  · exact ((unop_not_run_spec boolNotOp ⟨1⟩ 1 true).1 (by decide)).1 _ rfl
  · exact ((unop_not_run_spec typeWithNotOtherOutput ⟨1⟩ 1 ()).1 (by decide)).2 rfl
  · exact (unop_not_run_spec boolNotOp ⟨0⟩ 1 true).2 (by decide)

/-- C4: baseline equivalence. If the configured active id differs from a
site's id (`is_mutation_active` is false there), every instrumented
expression of the embedding — `run`, `run_native_num` and the modelled
binop-num switch — evaluates exactly as the un-instrumented original,
for all well-typed inputs. -/
theorem baseline_equivalence (cfg : MutagenRuntimeConfig) (site : Nat)
    (h : cfg.is_mutation_active site = false) :
    (∀ (α β : Type) (op : NotOp α β) (v : α),
      mutator_unop_not.run op site v cfg = some (op.not v)) ∧
    (∀ (I : Type) (notf : I → I) (v : I),
      mutator_unop_not.run_native_num notf site v cfg = notf v) ∧
    (∀ (orig mutated : Int → Int → Int) (a b : Int),
      binop_num_run orig mutated site a b cfg = orig a b) := by
  refine ⟨fun α β op v => ?_, fun I notf v => ?_, fun orig mutated a b => ?_⟩ <;>
    simp [mutator_unop_not.run, mutator_unop_not.run_native_num, binop_num_run, h]

/-- C4 witness: with active id 0 (baseline) and site id 1, the
instrumented boolean NOT, numeric NOT and `5 + 1` all produce the
original results. -/
theorem baseline_equivalence_witness :
    mutator_unop_not.run boolNotOp 1 true (MutagenRuntimeConfig.mk 0) = some (Bool.not true) ∧
    mutator_unop_not.run_native_num notU32 1 7 (MutagenRuntimeConfig.mk 0) = notU32 7 ∧
    binop_num_run (fun a b => a + b) (fun a b => a - b) 1 5 1 (MutagenRuntimeConfig.mk 0) = 5 + 1 := by
  refine ⟨?_, ?_, ?_⟩
  · exact (baseline_equivalence ⟨0⟩ 1 (by decide)).1 Bool Bool boolNotOp true
  · exact (baseline_equivalence ⟨0⟩ 1 (by decide)).2.1 Nat notU32 7
  · exact (baseline_equivalence ⟨0⟩ 1 (by decide)).2.2 _ _ 5 1

/-- C7: configuration initialization. An absent environment variable or
one whose value fails to parse yields active id 0 (baseline); `from_env`
is total, so this degradation is never fatal. Once initialized, a later
`get_default` returns the stored configuration without consulting the
environment (read once per process). -/
theorem from_env_defaults :
    MutagenRuntimeConfig.from_env none = MutagenRuntimeConfig.mk 0 ∧
    (∀ s, parseU32 s = none →
      MutagenRuntimeConfig.from_env (some s) = MutagenRuntimeConfig.mk 0) ∧
    (∀ (c : MutagenRuntimeConfig) (envVar : Option String),
      MutagenRuntimeConfig.get_default (some c) envVar = (c, some c)) ∧
    (∀ envVar : Option String,
      MutagenRuntimeConfig.get_default none envVar =
        (MutagenRuntimeConfig.from_env envVar,
         some (MutagenRuntimeConfig.from_env envVar))) := by
  refine ⟨rfl, fun s hs => ?_, fun c envVar => rfl, fun envVar => rfl⟩
  simp [MutagenRuntimeConfig.from_env, hs]

/-- C7 witness: the absent variable and the unparsable value `"abc"`
both give active id 0, and a stored config is returned unchanged even
when the environment would parse to something else. -/
theorem from_env_defaults_witness :
    MutagenRuntimeConfig.from_env (some "abc") = MutagenRuntimeConfig.mk 0 ∧
    MutagenRuntimeConfig.get_default (some (MutagenRuntimeConfig.mk 7)) (some "3") =
      (MutagenRuntimeConfig.mk 7, some (MutagenRuntimeConfig.mk 7)) :=
  ⟨(from_env_defaults.2.1 "abc" (by decide)),
   from_env_defaults.2.2.1 ⟨7⟩ (some "3")⟩

/-- C8: `get_mutation(s, r)` returns `none` when the active id is
strictly below `s`, and otherwise the record of `r` at index
`active_id - s` whenever that index is within `r`. -/
theorem get_mutation_spec {T : Type} (cfg : MutagenRuntimeConfig)
    (s : Nat) (r : List T) :
    (cfg.mutation_id < s → cfg.get_mutation s r = none) ∧
    (s ≤ cfg.mutation_id → ∀ h : cfg.mutation_id - s < r.length,
      cfg.get_mutation s r = some (r.get ⟨cfg.mutation_id - s, h⟩)) := by
  constructor
  · intro h
    simp [MutagenRuntimeConfig.get_mutation, h]
  · intro hle h
    rw [MutagenRuntimeConfig.get_mutation, if_neg (Nat.not_lt.mpr hle)]
    exact List.get?_eq_get h

/-- C8 witness: with active id 0 and start id 1 the lookup is `none`;
with active id 3 and start id 1 over a three-record slice it returns the
record at offset 2. -/
theorem get_mutation_spec_witness :
    (MutagenRuntimeConfig.mk 0).get_mutation 1 [10, 20, 30] = none ∧
    (MutagenRuntimeConfig.mk 3).get_mutation 1 [10, 20, 30] = some 30 := by
  constructor
  · exact (get_mutation_spec ⟨0⟩ 1 [10, 20, 30]).1 (by decide)
  · exact (get_mutation_spec ⟨3⟩ 1 [10, 20, 30]).2 (by decide) (by decide)

/-- C9: under the default configuration (environment variable absent),
the active id is 0 and `is_mutation_active 0` is true, so an
instrumented site that were assigned id 0 behaves as mutated even at
baseline: `run_native_num` at site 0 returns the operand unchanged, and
in particular differs from the original negation. -/
theorem default_config_activates_id_zero :
    (MutagenRuntimeConfig.from_env none).is_mutation_active 0 = true ∧
    (∀ (I : Type) (notf : I → I) (v : I),
      mutator_unop_not.run_native_num notf 0 v (MutagenRuntimeConfig.from_env none) = v) ∧
    mutator_unop_not.run_native_num Bool.not 0 true (MutagenRuntimeConfig.from_env none)
      ≠ Bool.not true := by
  refine ⟨rfl, fun I notf v => rfl, by decide⟩

/-- C10: `get_mutation` never panics: with the `u32` subtraction's
underflow failure and the slice lookup made explicit, every execution
returns normally (the guard rules out underflow, and the slice access is
checked), and agrees with the plain embedding; an active id at or past
`s + r.length` yields `none` rather than an out-of-bounds failure. -/
theorem get_mutation_total {T : Type} (cfg : MutagenRuntimeConfig)
    (s : Nat) (r : List T) :
    get_mutation_checked cfg s r = some (cfg.get_mutation s r) ∧
    (s ≤ cfg.mutation_id → r.length ≤ cfg.mutation_id - s →
      cfg.get_mutation s r = none) := by
  constructor
  · by_cases h : cfg.mutation_id < s
    · simp [get_mutation_checked, MutagenRuntimeConfig.get_mutation, h]
    · simp [get_mutation_checked, MutagenRuntimeConfig.get_mutation, h,
        checkedSub]
  · intro hle hlen
    rw [MutagenRuntimeConfig.get_mutation, if_neg (Nat.not_lt.mpr hle)]
    exact List.get?_eq_none.mpr hlen

/-- C10 witness: a lookup below the range, one inside it, and one past
its end (active id 10, start 1, two records) all return normally; the
past-the-end case yields `none`. -/
theorem get_mutation_total_witness :
    get_mutation_checked (MutagenRuntimeConfig.mk 0) 1 [10, 20] =
      some ((MutagenRuntimeConfig.mk 0).get_mutation 1 [10, 20]) ∧
    get_mutation_checked (MutagenRuntimeConfig.mk 10) 1 [10, 20] =
      some ((MutagenRuntimeConfig.mk 10).get_mutation 1 [10, 20]) ∧
    (MutagenRuntimeConfig.mk 10).get_mutation 1 [10, 20] = none := by
  refine ⟨?_, ?_, ?_⟩
  · exact (get_mutation_total ⟨0⟩ 1 [10, 20]).1
  · exact (get_mutation_total ⟨10⟩ 1 [10, 20]).1
  · exact (get_mutation_total ⟨10⟩ 1 [10, 20]).2 (by decide) (by decide)
